import Mathlib

/-!
Shallow embedding of the autonomous planning core of the repository.

The repository contains two structurally different variants of the planner
and of the loop driver; both are embedded:

* namespace SvcPlanning — packages/plugin-autonomous/src/services/PlanningModule.ts
  (stateless module: generatePlan, monitorPlan, replanIfNeeded);
* namespace MainPlanning — the root PlanningModule.ts (stateful module owning
  the current-plan slot: plan, generatePlan, checkPlanProgress,
  handleDiscrepancies, shouldReplan, isAllSubtasksCompleted, completePlan,
  updateSubtaskStatus);
* namespace AutoLoop — the executeTriggers loop body shared by both
  AutonomousLoop variants;
* namespace MainLoop — the planning branch of the single-timer
  AutonomousLoop tick (packages/plugin-autonomous/src/AutonomousLoop.ts).

Timestamps (Date.now()) and the random component of plan ids are passed as
explicit parameters.  Statuses are embedded as strings, matching the string
literals compared at run time.  Logging calls are modelled, where a claim
needs them, as explicit lists of emitted entries.
-/

/-- Decimal digit characters of a natural number, big-endian, with explicit
structural fuel so that closed evaluations reduce definitionally.  This models
the decimal rendering a JavaScript template literal performs on a nonnegative
integer (as in the plan and task id templates). -/
def natDigitsCore : Nat → Nat → List Char
  | 0, n => [Nat.digitChar n]
  | fuel + 1, n =>
      if n < 10 then [Nat.digitChar n]
      else natDigitsCore fuel (n / 10) ++ [Nat.digitChar (n % 10)]

/-- Decimal rendering of a natural number as a string. -/
def natDecimal (n : Nat) : String := String.mk (natDigitsCore n n)

/-- Numeric value of a big-endian list of decimal digit characters; the
inverse used to prove that decimal rendering is injective. -/
def digitsVal (ds : List Char) : Nat := ds.foldl (fun a c => a * 10 + (c.toNat - 48)) 0

namespace SvcPlanning

/-- Subtask record of services/PlanningModule.ts.  The optional free-form
data bag (data?: Record of unknowns) is not used by any embedded operation
and is omitted. -/
structure Subtask where
  id : String
  description : String
  status : String
  createdAt : Nat
  updatedAt : Nat
  deriving DecidableEq

/-- The optional plan metadata of services/PlanningModule.ts (the free-form
index-signature extras are omitted; no embedded operation reads them). -/
structure PlanMetadata where
  previousPlanId : Option String
  replanReason : Option String
  originalPlanCreatedAt : Option Nat
  deriving DecidableEq

/-- Plan record of services/PlanningModule.ts. -/
structure Plan where
  id : String
  subtasks : List Subtask
  status : String
  createdAt : Nat
  updatedAt : Nat
  metadata : Option PlanMetadata
  deriving DecidableEq

/-- The slice of the external State consumed by generatePlan: only
state.agentName is read. -/
structure AgentState where
  agentName : Option String
  deriving DecidableEq

/-- The agent label interpolated into the first subtask description:
state.agentName with JavaScript falsy fallback to the string user. -/
def agentLabel (state : AgentState) : String :=
  match state.agentName with
  | some n => if n == "" then "user" else n
  | none => "user"

/-- generatePlan of services/PlanningModule.ts.  t stands for Date.now() and
r for the random id component; the three mock subtasks, the id templates and
the initial statuses are translated verbatim. -/
def generatePlan (state : AgentState) (t r : Nat) : Plan :=
  { id := "plan-" ++ natDecimal t ++ "-" ++ natDecimal r
    subtasks := [
      { id := "subtask-" ++ natDecimal t ++ "-1"
        description := "Analyze recent messages from " ++ agentLabel state
        status := "pending", createdAt := t, updatedAt := t },
      { id := "subtask-" ++ natDecimal t ++ "-2"
        description := "Check for any required actions"
        status := "pending", createdAt := t, updatedAt := t },
      { id := "subtask-" ++ natDecimal t ++ "-3"
        description := "Prepare appropriate response"
        status := "pending", createdAt := t, updatedAt := t } ]
    status := "created", createdAt := t, updatedAt := t, metadata := none }

/-- Count of subtasks with status pending (monitorPlan, first filter). -/
def pendingCount (p : Plan) : Nat :=
  (p.subtasks.filter fun task => task.status == "pending").length

/-- Count of subtasks with status in_progress (monitorPlan, second filter). -/
def inProgressCount (p : Plan) : Nat :=
  (p.subtasks.filter fun task => task.status == "in_progress").length

/-- Count of subtasks with status completed (monitorPlan, third filter). -/
def completedCount (p : Plan) : Nat :=
  (p.subtasks.filter fun task => task.status == "completed").length

/-- Count of subtasks with status failed (monitorPlan, fourth filter). -/
def failedCount (p : Plan) : Nat :=
  (p.subtasks.filter fun task => task.status == "failed").length

/-- The two console.log lines emitted by monitorPlan for a non-null plan,
with the four-bucket tally interpolated into the second line. -/
def monitorPlanLog (p : Plan) : List String :=
  [ "Monitoring plan " ++ p.id ++ " with " ++ natDecimal p.subtasks.length ++ " subtasks",
    "Plan status: " ++ natDecimal (pendingCount p) ++ " pending, "
      ++ natDecimal (inProgressCount p) ++ " in progress, "
      ++ natDecimal (completedCount p) ++ " completed, "
      ++ natDecimal (failedCount p) ++ " failed" ]

/-- monitorPlan of services/PlanningModule.ts.  A null plan rejects with the
invalid-plan error; otherwise the promise resolves with void: the source
contains no assignment to the plan or its subtasks, and the tally reaches
only console.log (see monitorPlanLog), not the resolved value. -/
def monitorPlan (plan? : Option Plan) : Except String Unit :=
  match plan? with
  | none => Except.error "Invalid plan provided"
  | some _ => Except.ok ()

/-- The originalPlanCreatedAt value attached to a replacement plan:
currentPlan.metadata?.originalPlanCreatedAt with JavaScript falsy-or
fallback (the source uses the or-operator, not nullish coalescing, so the
value 0 also falls back) to currentPlan.createdAt. -/
def lineageOriginal (currentPlan : Plan) : Nat :=
  match currentPlan.metadata with
  | some m =>
      match m.originalPlanCreatedAt with
      | some v => if v == 0 then currentPlan.createdAt else v
      | none => currentPlan.createdAt
  | none => currentPlan.createdAt

/-- replanIfNeeded of services/PlanningModule.ts.  A null current plan
rejects with the invalid-plan error.  The result pairs the returned plan
with the post-call current plan: the source never writes to currentPlan, so
the second component is the argument itself, making non-mutation explicit. -/
def replanIfNeeded (state : AgentState) (currentPlan? : Option Plan) (t r : Nat) :
    Except String (Plan × Plan) :=
  match currentPlan? with
  | none => Except.error "Invalid plan provided"
  | some currentPlan =>
      let hasFailedTasks := currentPlan.subtasks.any fun task => task.status == "failed"
      if hasFailedTasks then
        let newPlan := generatePlan state t r
        let newPlan2 := { newPlan with metadata := some (
          { previousPlanId := some currentPlan.id
            replanReason := some "Failed tasks detected"
            originalPlanCreatedAt := some (lineageOriginal currentPlan) } : PlanMetadata) }
        Except.ok (newPlan2, currentPlan)
      else
        Except.ok (currentPlan, currentPlan)

/-- Projection: the previousPlanId recorded in a plan's metadata. -/
def metaPreviousPlanId (p : Plan) : Option String :=
  match p.metadata with
  | none => none
  | some m => m.previousPlanId

/-- Projection: the originalPlanCreatedAt recorded in a plan's metadata. -/
def metaOriginalPlanCreatedAt (p : Plan) : Option Nat :=
  match p.metadata with
  | none => none
  | some m => m.originalPlanCreatedAt

/-- A sample external state used by concrete instances. -/
def sampleState : AgentState := { agentName := some "Test Agent" }

/-- A concrete plan with one completed and one failed subtask (the shape of
the concrete scenario in the spec), status in_progress. -/
def cpFailed : Plan :=
  { id := "p0"
    subtasks := [ ⟨"t1", "d1", "completed", 1, 1⟩, ⟨"t2", "d2", "failed", 1, 1⟩ ]
    status := "in_progress", createdAt := 5, updatedAt := 5, metadata := none }

/-- cpFailed carrying lineage metadata whose originalPlanCreatedAt is 0. -/
def cpZeroMeta : Plan :=
  { cpFailed with metadata := some (
      { previousPlanId := none, replanReason := none,
        originalPlanCreatedAt := some 0 } : PlanMetadata) }

/-- cpFailed carrying lineage metadata whose originalPlanCreatedAt is the
nonzero root timestamp 42. -/
def cpMetaT0 : Plan :=
  { cpFailed with metadata := some (
      { previousPlanId := none, replanReason := none,
        originalPlanCreatedAt := some 42 } : PlanMetadata) }

/-- A concrete plan with no failed subtask. -/
def cpClean : Plan :=
  { id := "p1"
    subtasks := [ ⟨"t1", "d1", "completed", 1, 1⟩, ⟨"t2", "d2", "pending", 1, 1⟩ ]
    status := "in_progress", createdAt := 3, updatedAt := 3, metadata := none }

/-- A concrete plan with zero failed subtasks, for the tally observability
counterexample. -/
def tallyPlanA : Plan :=
  { id := "tp", subtasks := [ ⟨"t1", "d1", "pending", 1, 1⟩ ]
    status := "created", createdAt := 1, updatedAt := 1, metadata := none }

/-- A concrete plan with one failed subtask, for the tally observability
counterexample. -/
def tallyPlanB : Plan :=
  { id := "tp", subtasks := [ ⟨"t1", "d1", "failed", 1, 1⟩ ]
    status := "created", createdAt := 1, updatedAt := 1, metadata := none }

end SvcPlanning

namespace MainPlanning

/-- Subtask record of the root PlanningModule.ts: id, description, status and
optional dependencies.  This variant has no per-subtask timestamps. -/
structure Subtask where
  id : String
  description : String
  status : String
  dependencies : Option (List String)
  deriving DecidableEq

/-- Plan record of the root PlanningModule.ts. -/
structure Plan where
  id : String
  goal : String
  subtasks : List Subtask
  createdAt : Nat
  updatedAt : Nat
  status : String
  deriving DecidableEq

/-- The mutable fields of the root PlanningModule instance: the current-plan
slot, the re-entrancy flag, and the sequence of logger action tags emitted so
far (each elizaLogger call is modelled by appending its action tag). -/
structure ModState where
  currentPlan : Option Plan
  isPlanningInProgress : Bool
  log : List String
  deriving DecidableEq

/-- The state of a freshly constructed PlanningModule. -/
def initState : ModState :=
  { currentPlan := none, isPlanningInProgress := false, log := [] }

/-- The placeholder plan built by generatePlan of the root PlanningModule.ts,
with t standing for Date.now() (the source samples Date.now() several times
in one expression; a single instant is used for all of them). -/
def generatePlan (t : Nat) : Plan :=
  { id := "plan-" ++ natDecimal t
    goal := "Default goal"
    subtasks := [
      { id := "task-" ++ natDecimal t ++ "-1", description := "Example subtask 1"
        status := "pending", dependencies := none },
      { id := "task-" ++ natDecimal t ++ "-2", description := "Example subtask 2"
        status := "pending", dependencies := some ["task-" ++ natDecimal t ++ "-1"] } ]
    createdAt := t, updatedAt := t, status := "active" }

/-- The generatePlan method as a state transformer: logs generate_plan,
installs the new plan in the slot, logs plan_generated.  The catch branch of
the source rethrows and is unreachable in this embedding (the body is
total). -/
def generatePlanM (s : ModState) (t : Nat) : ModState :=
  { s with currentPlan := some (generatePlan t)
           log := s.log ++ ["generate_plan", "plan_generated"] }

/-- checkPlanProgress of the root PlanningModule.ts: with no current plan it
returns the empty list at once; otherwise it logs check_plan_progress and
returns the empty list (the stub reports no discrepancies). -/
def checkPlanProgress (s : ModState) : List String × ModState :=
  match s.currentPlan with
  | none => ([], s)
  | some _ => ([], { s with log := s.log ++ ["check_plan_progress"] })

/-- The startsWith test of JavaScript strings, expressed on the character
lists of the two strings so that it evaluates by reduction. -/
def strStartsWith (s pre : String) : Bool :=
  pre.data.isPrefixOf s.data

/-- shouldReplan of the root PlanningModule.ts: replan when any discrepancy
starts with the CRITICAL severity marker. -/
def shouldReplan (discrepancies : List String) : Bool :=
  discrepancies.any fun d => strStartsWith d "CRITICAL:"

/-- handleDiscrepancies of the root PlanningModule.ts: logs
handle_discrepancies; when shouldReplan fires it marks the current plan
abandoned (status and updatedAt assigned in place) and then regenerates.
The second component returns the superseded plan record after its in-place
mutation, so that its final status is observable once the slot has been
reassigned. -/
def handleDiscrepancies (s : ModState) (discrepancies : List String) (t : Nat) :
    ModState × Option Plan :=
  let s1 := { s with log := s.log ++ ["handle_discrepancies"] }
  if shouldReplan discrepancies then
    match s1.currentPlan with
    | some p =>
        let abandoned : Plan := { p with status := "abandoned", updatedAt := t }
        (generatePlanM { s1 with currentPlan := some abandoned } t, some abandoned)
    | none => (generatePlanM s1 t, none)
  else (s1, none)

/-- isAllSubtasksCompleted of the root PlanningModule.ts. -/
def isAllSubtasksCompleted (s : ModState) : Bool :=
  match s.currentPlan with
  | none => false
  | some p => p.subtasks.all fun task => task.status == "completed"

/-- completePlan of the root PlanningModule.ts: marks the current plan
completed, logs plan_completed, and clears the slot.  The second component
returns the completed plan record, observable after the slot is cleared. -/
def completePlan (s : ModState) (t : Nat) : ModState × Option Plan :=
  match s.currentPlan with
  | none => (s, none)
  | some p =>
      let done : Plan := { p with status := "completed", updatedAt := t }
      ({ s with currentPlan := none, log := s.log ++ ["plan_completed"] }, some done)

/-- The body of the try block of the plan method: generate when no plan
exists (early return), otherwise check progress, handle discrepancies when
any were reported, and complete the plan when every subtask is completed. -/
def planStep (s : ModState) (t : Nat) : ModState × Option Plan :=
  match s.currentPlan with
  | none => (generatePlanM s t, none)
  | some _ =>
      let pr := checkPlanProgress s
      let s2 := if pr.1.length > 0 then (handleDiscrepancies pr.2 pr.1 t).1 else pr.2
      if s2.currentPlan.isSome && isAllSubtasksCompleted s2 then completePlan s2 t
      else (s2, none)

/-- The public plan method of the root PlanningModule.ts: skip (logging
planning_skipped) when a cycle is already in flight, otherwise set the
re-entrancy flag, run the body, and clear the flag in the finally step.  Every
translated step of the body is total, so the catch branch of the source is
unreachable; the finally clause is the trailing flag reset. -/
def plan (s : ModState) (t : Nat) : ModState × Option Plan :=
  if s.isPlanningInProgress then
    ({ s with log := s.log ++ ["planning_skipped"] }, none)
  else
    let s0 := { s with isPlanningInProgress := true }
    let r := planStep s0 t
    ({ r.1 with isPlanningInProgress := false }, r.2)

/-- getCurrentPlan of the root PlanningModule.ts. -/
def getCurrentPlan (s : ModState) : Option Plan := s.currentPlan

/-- Status assignment to the first subtask with the given id, leaving every
other field and every other subtask unchanged (the source locates the subtask
with Array.find and assigns its status in place). -/
def setFirstStatus : List Subtask → String → String → List Subtask
  | [], _, _ => []
  | task :: rest, subtaskId, status =>
      if task.id == subtaskId then { task with status := status } :: rest
      else task :: setFirstStatus rest subtaskId status

/-- updateSubtaskStatus of the root PlanningModule.ts: false when no current
plan exists or no subtask has the given id (state untouched); otherwise the
subtask's status and the plan's updatedAt are assigned, the update is logged,
and true is returned.  The subtask record of this variant carries no
timestamp of its own. -/
def updateSubtaskStatus (s : ModState) (subtaskId status : String) (t : Nat) :
    Bool × ModState :=
  match s.currentPlan with
  | none => (false, s)
  | some p =>
      if p.subtasks.any fun task => task.id == subtaskId then
        (true, { s with
          currentPlan := some { p with
            subtasks := setFirstStatus p.subtasks subtaskId status
            updatedAt := t }
          log := s.log ++ ["update_subtask_status"] })
      else (false, s)

/-- Statuses allowed for a plan installed in the current-plan slot. -/
def planStatusOk (p : Plan) : Bool :=
  p.status == "created" || p.status == "active" || p.status == "in_progress"

/-- The exactly-one-current-plan invariant on the slot: empty, or holding one
plan whose status is in the current set. -/
def currentPlanInv (s : ModState) : Bool :=
  match s.currentPlan with
  | none => true
  | some p => planStatusOk p

/-- A concrete plan of this variant with a single pending subtask. -/
def mPlanPending : Plan :=
  { id := "plan-1", goal := "g"
    subtasks := [ ⟨"t1", "d1", "pending", none⟩ ]
    createdAt := 1, updatedAt := 1, status := "active" }

/-- A concrete plan of this variant whose subtasks are all completed,
carrying the id generatePlan would assign at instant 3. -/
def mPlanDone : Plan :=
  { id := "plan-" ++ natDecimal 3, goal := "g"
    subtasks := [ ⟨"t1", "d1", "completed", none⟩, ⟨"t2", "d2", "completed", none⟩ ]
    createdAt := 3, updatedAt := 3, status := "active" }

end MainPlanning

namespace AutoLoop

/-- The executeTriggers loop body shared by both AutonomousLoop variants:
every registered trigger is awaited sequentially in registration order; a
throwing trigger has its error caught and reported and the loop continues
with the next trigger.  A trigger is modelled as an action on an abstract
world that either yields an updated world or throws; the second component
collects the reported errors in order. -/
def executeTriggers {σ : Type} (triggers : List (σ → Except String σ)) (s : σ) :
    σ × List String :=
  match triggers with
  | [] => (s, [])
  | trigger :: rest =>
      match trigger s with
      | Except.ok s1 => executeTriggers rest s1
      | Except.error e =>
          let r := executeTriggers rest s
          (r.1, e :: r.2)

/-- A trigger unit that always succeeds, recording its invocation by
appending its index to the world. -/
def appendUnit (i : Nat) : List Nat → Except String (List Nat) :=
  fun s => Except.ok (s ++ [i])

/-- A trigger unit that always throws. -/
def failingUnit : List Nat → Except String (List Nat) :=
  fun _ => Except.error "trigger failed"

end AutoLoop

namespace MainLoop

/-- The loop-relevant fields of the single-timer AutonomousLoop
(packages/plugin-autonomous/src/AutonomousLoop.ts): the timestamp of the last
successful planning run, the planning interval, and whether a planning
function is registered.  Times are integers of milliseconds. -/
structure LoopState where
  lastPlanTime : Int
  planIntervalMs : Int
  hasPlanningFunction : Bool
  deriving DecidableEq

/-- The planning branch of one setInterval tick of the single-timer
AutonomousLoop: when a planning function is set and the planning interval has
elapsed, the planning function is awaited; on success lastPlanTime is
advanced to the current time, while a thrown error is caught and logged and
lastPlanTime is left unchanged.  The outcome of the opaque planning function
is passed in; the boolean reports whether the function was invoked. -/
def planningTick (s : LoopState) (currentTime : Int) (outcome : Except String Unit) :
    LoopState × Bool :=
  if s.hasPlanningFunction = true ∧ currentTime - s.lastPlanTime ≥ s.planIntervalMs then
    match outcome with
    | Except.ok _ => ({ s with lastPlanTime := currentTime }, true)
    | Except.error _ => (s, true)
  else (s, false)

end MainLoop

theorem digitChar_toNat_of_lt {n : Nat} (h : n < 10) : (Nat.digitChar n).toNat = 48 + n := by
  interval_cases n <;> rfl

theorem digitsVal_natDigitsCore : ∀ (fuel n : Nat), n ≤ fuel →
    digitsVal (natDigitsCore fuel n) = n := by
  intro fuel
  induction fuel with
  | zero =>
      intro n hn
      interval_cases n
      decide
  | succ fuel ih =>
      intro n hn
      by_cases h10 : n < 10
      · simp only [natDigitsCore, if_pos h10, digitsVal, List.foldl]
        rw [digitChar_toNat_of_lt h10]
        omega
      · have hpos : 0 < n := by omega
        have hdiv : n / 10 < n := Nat.div_lt_self hpos (by omega)
        have hle : n / 10 ≤ fuel := by omega
        have hmod : n % 10 < 10 := Nat.mod_lt n (by omega)
        simp only [natDigitsCore, if_neg h10, digitsVal, List.foldl_append, List.foldl]
        have := ih (n / 10) hle
        simp only [digitsVal] at this
        rw [this, digitChar_toNat_of_lt hmod]
        omega

theorem natDecimal_inj {m n : Nat} (h : natDecimal m = natDecimal n) : m = n := by
  have hm := digitsVal_natDigitsCore m m (Nat.le_refl m)
  have hn := digitsVal_natDigitsCore n n (Nat.le_refl n)
  have hd : natDigitsCore m m = natDigitsCore n n := congrArg String.data h
  rw [← hm, ← hn, hd]

theorem planId_ne {m n : Nat} (h : m ≠ n) :
    "plan-" ++ natDecimal m ≠ "plan-" ++ natDecimal n := by
  intro he
  apply h
  apply natDecimal_inj
  have h2 : "plan-".data ++ natDigitsCore m m = "plan-".data ++ natDigitsCore n n :=
    congrArg String.data he
  exact congrArg String.mk (List.append_cancel_left h2)

namespace SvcPlanning

/-- At most one of the four status buckets matches a given status string. -/
theorem bucket_le_one (s : String) :
    ((if s == "pending" then 1 else 0) + (if s == "in_progress" then 1 else 0)
      + (if s == "completed" then 1 else 0) + (if s == "failed" then 1 else 0) : Nat) ≤ 1 := by
  by_cases h1 : s = "pending"
  · subst h1; decide
  by_cases h2 : s = "in_progress"
  · subst h2; decide
  by_cases h3 : s = "completed"
  · subst h3; decide
  by_cases h4 : s = "failed"
  · subst h4; decide
  simp [h1, h2, h3, h4]

/-- The four status buckets of monitorPlan partition at most the subtask
list: their cardinalities sum to at most the number of subtasks. -/
theorem statusBuckets_le (ts : List Subtask) :
    (ts.filter fun task => task.status == "pending").length
      + (ts.filter fun task => task.status == "in_progress").length
      + (ts.filter fun task => task.status == "completed").length
      + (ts.filter fun task => task.status == "failed").length ≤ ts.length := by
  induction ts with
  | nil => simp
  | cons a l ih =>
      have hb := bucket_le_one a.status
      simp only [List.filter_cons, List.length_cons]
      by_cases h1 : (a.status == "pending") = true <;>
        by_cases h2 : (a.status == "in_progress") = true <;>
          by_cases h3 : (a.status == "completed") = true <;>
            by_cases h4 : (a.status == "failed") = true <;>
              simp [h1, h2, h3, h4] at hb ⊢ <;> omega

/-- When the replacement fires, the replacement's recorded previousPlanId is
the superseded plan's id. -/
theorem replan_result_prev (state : AgentState) (cp : Plan) (t r : Nat)
    (hfail : (cp.subtasks.any fun task => task.status == "failed") = true) :
    Except.map (fun pr => metaPreviousPlanId pr.1) (replanIfNeeded state (some cp) t r)
      = Except.ok (some cp.id) := by
  simp [replanIfNeeded, hfail, Except.map, metaPreviousPlanId]

/-- When the replacement fires, the replacement's recorded
originalPlanCreatedAt is the or-fallback lineage value of the superseded
plan. -/
theorem replan_result_original (state : AgentState) (cp : Plan) (t r : Nat)
    (hfail : (cp.subtasks.any fun task => task.status == "failed") = true) :
    Except.map (fun pr => metaOriginalPlanCreatedAt pr.1) (replanIfNeeded state (some cp) t r)
      = Except.ok (some (lineageOriginal cp)) := by
  simp [replanIfNeeded, hfail, Except.map, metaOriginalPlanCreatedAt]

/-- Claim C1: for a non-null plan with no failed subtask, replanIfNeeded
returns the same plan, unmodified; for a non-null plan with at least one
failed subtask it returns a different plan whose metadata.previousPlanId is
the original plan's id. -/
theorem replanIfNeeded_decision (state : AgentState) (cp : Plan) (t r : Nat) :
    ((cp.subtasks.any fun task => task.status == "failed") = false →
      replanIfNeeded state (some cp) t r = Except.ok (cp, cp)) ∧
    ((cp.subtasks.any fun task => task.status == "failed") = true →
      Except.map (fun pr => metaPreviousPlanId pr.1) (replanIfNeeded state (some cp) t r)
          = Except.ok (some cp.id) ∧
      Except.map (fun pr => pr.1) (replanIfNeeded state (some cp) t r) ≠ Except.ok cp) := by
  constructor
  · intro h
    simp [replanIfNeeded, h]
  · intro h
    refine ⟨replan_result_prev state cp t r h, ?_⟩
    simp only [replanIfNeeded, h, if_pos, Except.map, ne_eq, Except.ok.injEq]
    intro he
    rw [← he] at h
    simp [generatePlan] at h

/-- Witness for C1: the decision evaluated on a concrete plan without failed
subtasks and on a concrete plan with a failed subtask. -/
theorem replanIfNeeded_decision_witness :
    (replanIfNeeded sampleState (some cpClean) 10 1 = Except.ok (cpClean, cpClean)) ∧
    (Except.map (fun pr => metaPreviousPlanId pr.1)
        (replanIfNeeded sampleState (some cpFailed) 10 1) = Except.ok (some cpFailed.id) ∧
      Except.map (fun pr => pr.1) (replanIfNeeded sampleState (some cpFailed) 10 1)
        ≠ Except.ok cpFailed) :=
  ⟨(replanIfNeeded_decision sampleState cpClean 10 1).1 (by decide),
   (replanIfNeeded_decision sampleState cpFailed 10 1).2 (by decide)⟩

/-- Claim C2 (amended): when the replacement fires, a nonzero inherited
metadata.originalPlanCreatedAt = T0 is preserved in the replacement plan;
with no inherited value the replacement records the predecessor's createdAt;
and an inherited value of 0 is falsy for the or-fallback of the source, so it
also falls back to the predecessor's createdAt. -/
theorem replan_lineage_accumulation (state : AgentState) (cp : Plan) (t r T0 : Nat)
    (hfail : (cp.subtasks.any fun task => task.status == "failed") = true) :
    (metaOriginalPlanCreatedAt cp = some T0 → T0 ≠ 0 →
      Except.map (fun pr => metaOriginalPlanCreatedAt pr.1) (replanIfNeeded state (some cp) t r)
        = Except.ok (some T0)) ∧
    (metaOriginalPlanCreatedAt cp = none →
      Except.map (fun pr => metaOriginalPlanCreatedAt pr.1) (replanIfNeeded state (some cp) t r)
        = Except.ok (some cp.createdAt)) ∧
    (metaOriginalPlanCreatedAt cp = some 0 →
      Except.map (fun pr => metaOriginalPlanCreatedAt pr.1) (replanIfNeeded state (some cp) t r)
        = Except.ok (some cp.createdAt)) := by
  refine ⟨?_, ?_, ?_⟩
  · intro hmeta hT0
    rw [replan_result_original state cp t r hfail]
    rcases hm : cp.metadata with _ | m
    · rw [metaOriginalPlanCreatedAt, hm] at hmeta
      exact absurd hmeta (by simp)
    · rw [metaOriginalPlanCreatedAt, hm] at hmeta
      simp only [] at hmeta
      have hb : (T0 == 0) = false := by simpa using hT0
      simp [lineageOriginal, hm, hmeta, hb]
  · intro hmeta
    rw [replan_result_original state cp t r hfail]
    rcases hm : cp.metadata with _ | m
    · simp [lineageOriginal, hm]
    · rw [metaOriginalPlanCreatedAt, hm] at hmeta
      simp only [] at hmeta
      simp [lineageOriginal, hm, hmeta]
  · intro hmeta
    rw [replan_result_original state cp t r hfail]
    rcases hm : cp.metadata with _ | m
    · rw [metaOriginalPlanCreatedAt, hm] at hmeta
      exact absurd hmeta (by simp)
    · rw [metaOriginalPlanCreatedAt, hm] at hmeta
      simp only [] at hmeta
      simp [lineageOriginal, hm, hmeta]

/-- Witness for C2: lineage evaluated on a concrete failed plan carrying the
nonzero root timestamp 42 and on a concrete failed plan without lineage. -/
theorem replan_lineage_accumulation_witness :
    (Except.map (fun pr => metaOriginalPlanCreatedAt pr.1)
        (replanIfNeeded sampleState (some cpMetaT0) 10 1) = Except.ok (some 42)) ∧
    (Except.map (fun pr => metaOriginalPlanCreatedAt pr.1)
        (replanIfNeeded sampleState (some cpFailed) 10 1)
      = Except.ok (some cpFailed.createdAt)) :=
  ⟨(replan_lineage_accumulation sampleState cpMetaT0 10 1 42 (by decide)).1
      (by decide) (by decide),
   (replan_lineage_accumulation sampleState cpFailed 10 1 42 (by decide)).2.1 (by decide)⟩

/-- Counterexample for C2 as stated: a plan carrying
metadata.originalPlanCreatedAt = 0 (with createdAt = 5) is replanned into a
plan whose originalPlanCreatedAt is 5, not the carried 0 — the or-fallback of
the source drops a falsy root timestamp. -/
theorem replan_lineage_zero_counterexample :
    metaOriginalPlanCreatedAt cpZeroMeta = some 0 ∧
    Except.map (fun pr => metaOriginalPlanCreatedAt pr.1)
        (replanIfNeeded sampleState (some cpZeroMeta) 10 1) = Except.ok (some 5) ∧
    (5 : Nat) ≠ 0 :=
  ⟨rfl, rfl, by decide⟩

/-- Claim C3 (amended): monitorPlan rejects a null plan with the
invalid-plan error; for a non-null plan its resolved value is void (the plan
is not mutated: the embedding returns no updated plan because the source
contains no write), and the four-bucket tally it computes for the log line
is a well-formed partition bounded by the number of subtasks. -/
theorem monitorPlan_contract (p : Plan) :
    monitorPlan none = Except.error "Invalid plan provided" ∧
    monitorPlan (some p) = Except.ok () ∧
    pendingCount p + inProgressCount p + completedCount p + failedCount p
      ≤ p.subtasks.length :=
  ⟨rfl, rfl, statusBuckets_le p.subtasks⟩

/-- Counterexample for C3 as stated: two concrete plans with different failed
counts produce identical monitorPlan results — the tally is observable only
in the log text, not in the operation's result. -/
theorem monitorPlan_tally_not_observable :
    monitorPlan (some tallyPlanA) = monitorPlan (some tallyPlanB) ∧
    failedCount tallyPlanA ≠ failedCount tallyPlanB :=
  ⟨rfl, by decide⟩

/-- Counterexample for C4 as stated: on a concrete plan with a failed subtask
the replan decision of replanIfNeeded fires (the replacement records
previousPlanId p0), yet the superseded plan comes out of the call with its
status still in_progress — replanIfNeeded never marks it abandoned (its
status enum does not even contain that value). -/
theorem replan_no_abandon_counterexample :
    Except.map (fun pr => pr.2) (replanIfNeeded sampleState (some cpFailed) 10 1)
      = Except.ok cpFailed ∧
    cpFailed.status = "in_progress" ∧
    Except.map (fun pr => metaPreviousPlanId pr.1) (replanIfNeeded sampleState (some cpFailed) 10 1)
      = Except.ok (some "p0") :=
  ⟨rfl, rfl, rfl⟩

end SvcPlanning

namespace MainPlanning

/-- Claim C4 (amended): in the stateful module, when handleDiscrepancies
decides to replan (a CRITICAL-severity discrepancy is present), the current
plan is marked abandoned before the freshly generated successor is installed
in the slot. -/
theorem handleDiscrepancies_abandons (s : ModState) (p : Plan) (discs : List String) (t : Nat)
    (hp : s.currentPlan = some p) (hcrit : shouldReplan discs = true) :
    (handleDiscrepancies s discs t).2 = some { p with status := "abandoned", updatedAt := t } ∧
    (handleDiscrepancies s discs t).1.currentPlan = some (generatePlan t) := by
  simp [handleDiscrepancies, hcrit, hp, generatePlanM]

/-- Witness for C4: handleDiscrepancies evaluated on a concrete state with a
pending plan and one CRITICAL discrepancy. -/
theorem handleDiscrepancies_abandons_witness :
    (handleDiscrepancies
        { currentPlan := some mPlanPending, isPlanningInProgress := false, log := [] }
        ["CRITICAL: drift"] 9).2
      = some { mPlanPending with status := "abandoned", updatedAt := 9 } ∧
    (handleDiscrepancies
        { currentPlan := some mPlanPending, isPlanningInProgress := false, log := [] }
        ["CRITICAL: drift"] 9).1.currentPlan
      = some (generatePlan 9) :=
  handleDiscrepancies_abandons
    { currentPlan := some mPlanPending, isPlanningInProgress := false, log := [] }
    mPlanPending ["CRITICAL: drift"] 9 rfl (by decide)

/-- setFirstStatus relates every subtask to its updated counterpart: ids,
descriptions and dependencies are untouched, list length included — only a
status field can change. -/
theorem setFirstStatus_shape (ts : List Subtask) (subtaskId newStatus : String) :
    List.Forall₂ (fun a b => a.id = b.id ∧ a.description = b.description ∧
      a.dependencies = b.dependencies) ts (setFirstStatus ts subtaskId newStatus) := by
  induction ts with
  | nil => exact List.Forall₂.nil
  | cons a l ih =>
      by_cases h : (a.id == subtaskId) = true
      · rw [setFirstStatus, if_pos h]
        refine List.Forall₂.cons ⟨rfl, rfl, rfl⟩ ?_
        clear h ih
        induction l with
        | nil => exact List.Forall₂.nil
        | cons b m ihm => exact List.Forall₂.cons ⟨rfl, rfl, rfl⟩ ihm
      · rw [setFirstStatus, if_neg h]
        exact List.Forall₂.cons ⟨rfl, rfl, rfl⟩ ih

/-- Claim C5 (amended): updateSubtaskStatus returns false and leaves the
state untouched when no current plan exists or no subtask carries the id; on
success it returns true, assigns the named subtask's status and the plan's
updatedAt, and changes nothing else — in this variant the subtask record has
no timestamp of its own to bump. -/
theorem updateSubtaskStatus_contract (s : ModState) (p : Plan)
    (subtaskId newStatus : String) (t : Nat) :
    (s.currentPlan = none → updateSubtaskStatus s subtaskId newStatus t = (false, s)) ∧
    (s.currentPlan = some p →
      ((p.subtasks.any fun task => task.id == subtaskId) = false →
        updateSubtaskStatus s subtaskId newStatus t = (false, s)) ∧
      ((p.subtasks.any fun task => task.id == subtaskId) = true →
        updateSubtaskStatus s subtaskId newStatus t =
          (true, { s with
            currentPlan := some { p with
              subtasks := setFirstStatus p.subtasks subtaskId newStatus
              updatedAt := t }
            log := s.log ++ ["update_subtask_status"] }))) ∧
    List.Forall₂ (fun a b => a.id = b.id ∧ a.description = b.description ∧
      a.dependencies = b.dependencies) p.subtasks (setFirstStatus p.subtasks subtaskId newStatus) := by
  refine ⟨?_, ?_, setFirstStatus_shape p.subtasks subtaskId newStatus⟩
  · intro h
    simp [updateSubtaskStatus, h]
  · intro hp
    constructor
    · intro hna
      simp [updateSubtaskStatus, hp, hna]
    · intro hyes
      simp [updateSubtaskStatus, hp, hyes]

/-- Witness for C5: the contract evaluated on a concrete state holding one
pending subtask, updated to completed at instant 9, plus the no-plan case. -/
theorem updateSubtaskStatus_contract_witness :
    (updateSubtaskStatus initState "t1" "completed" 9 = (false, initState)) ∧
    (updateSubtaskStatus
        { currentPlan := some mPlanPending, isPlanningInProgress := false, log := [] }
        "t1" "completed" 9
      = (true,
        { currentPlan := some { mPlanPending with
            subtasks := setFirstStatus mPlanPending.subtasks "t1" "completed",
            updatedAt := 9 },
          isPlanningInProgress := false,
          log := ["update_subtask_status"] })) :=
  ⟨(updateSubtaskStatus_contract initState mPlanPending "t1" "completed" 9).1 rfl,
   ((updateSubtaskStatus_contract
      { currentPlan := some mPlanPending, isPlanningInProgress := false, log := [] }
      mPlanPending "t1" "completed" 9).2.1 rfl).2 (by decide)⟩

/-- Counterexample for C5 as stated: the successful update at instant 9
produces exactly this state — the updated subtask consists of its id,
description, new status and dependencies, and carries no updatedAt of its
own that could have been bumped (the claimed per-subtask timestamp bump has
no carrier in this variant). -/
theorem updateSubtask_no_timestamp_counterexample :
    updateSubtaskStatus
        { currentPlan := some mPlanPending, isPlanningInProgress := false, log := [] }
        "t1" "completed" 9
      = (true,
        { currentPlan := some (
            { id := "plan-1", goal := "g",
              subtasks := [ ⟨"t1", "d1", "completed", none⟩ ],
              createdAt := 1, updatedAt := 9, status := "active" } : Plan),
          isPlanningInProgress := false,
          log := ["update_subtask_status"] }) := by
  decide

/-- Claim C6: when the composite plan routine runs on a current plan whose
subtasks are all completed, the plan is marked completed (returned as the
second component after its in-place mutation) and the slot is cleared; the
next cycle then generates a fresh plan, whose id differs from the completed
plan's generated id whenever the generation instants differ. -/
theorem plan_completion_clears_slot (s : ModState) (p : Plan) (t tNext : Nat)
    (hp : s.currentPlan = some p)
    (hflag : s.isPlanningInProgress = false)
    (hall : (p.subtasks.all fun task => task.status == "completed") = true)
    (hpid : p.id = "plan-" ++ natDecimal p.createdAt)
    (ht : tNext ≠ p.createdAt) :
    (plan s t).1.currentPlan = none ∧
    (plan s t).2 = some { p with status := "completed", updatedAt := t } ∧
    (plan (plan s t).1 tNext).1.currentPlan = some (generatePlan tNext) ∧
    (generatePlan tNext).id ≠ p.id := by
  have hmain : plan s t =
      ({ currentPlan := none, isPlanningInProgress := false
         log := s.log ++ ["check_plan_progress", "plan_completed"] },
       some { p with status := "completed", updatedAt := t }) := by
    simp [plan, hflag, planStep, hp, checkPlanProgress, isAllSubtasksCompleted, hall,
      completePlan]
  refine ⟨by rw [hmain], by rw [hmain], ?_, ?_⟩
  · rw [hmain]
    simp [plan, planStep, generatePlanM]
  · rw [hpid]
    simp only [generatePlan]
    exact planId_ne ht

/-- Witness for C6: completion evaluated on a concrete state holding a fully
completed plan generated at instant 3, with the next cycle at instant 9. -/
theorem plan_completion_clears_slot_witness :
    (plan { currentPlan := some mPlanDone, isPlanningInProgress := false, log := [] } 7).1.currentPlan
      = none ∧
    (plan { currentPlan := some mPlanDone, isPlanningInProgress := false, log := [] } 7).2
      = some { mPlanDone with status := "completed", updatedAt := 7 } ∧
    (plan (plan { currentPlan := some mPlanDone, isPlanningInProgress := false, log := [] } 7).1
        9).1.currentPlan = some (generatePlan 9) ∧
    (generatePlan 9).id ≠ mPlanDone.id :=
  plan_completion_clears_slot
    { currentPlan := some mPlanDone, isPlanningInProgress := false, log := [] }
    mPlanDone 7 9 rfl rfl (by decide) rfl (by decide)

/-- Claim C7: the composite plan routine is guarded by the re-entrancy flag:
invoked while a cycle is in flight it only logs the skip and changes nothing
else (no plan generated, replaced or completed); and an invocation that runs
(flag initially clear) always leaves the flag clear again on return, the
flag being reset in the trailing finally step. -/
theorem plan_reentrancy_guard (s : ModState) (t : Nat) :
    (s.isPlanningInProgress = true →
      plan s t = ({ s with log := s.log ++ ["planning_skipped"] }, none)) ∧
    (s.isPlanningInProgress = false → (plan s t).1.isPlanningInProgress = false) := by
  constructor
  · intro h
    simp [plan, h]
  · intro h
    simp [plan, h]

/-- Witness for C7: the guard evaluated on a concrete in-flight state and on
a concrete idle state. -/
theorem plan_reentrancy_guard_witness :
    (plan { currentPlan := some mPlanPending, isPlanningInProgress := true, log := [] } 5
      = ({ currentPlan := some mPlanPending, isPlanningInProgress := true
           log := ["planning_skipped"] }, none)) ∧
    (plan initState 5).1.isPlanningInProgress = false :=
  ⟨(plan_reentrancy_guard
      { currentPlan := some mPlanPending, isPlanningInProgress := true, log := [] } 5).1 rfl,
   (plan_reentrancy_guard initState 5).2 rfl⟩

/-- Claim C9: the exactly-one-current-plan invariant — the slot empty or
holding one plan with a current status — holds initially and is preserved by
every public operation of the stateful planner (plan and
updateSubtaskStatus; getCurrentPlan does not change state). -/
theorem planner_current_plan_invariant (s : ModState) (t : Nat)
    (subtaskId newStatus : String) (hinv : currentPlanInv s = true) :
    currentPlanInv (plan s t).1 = true ∧
    currentPlanInv (updateSubtaskStatus s subtaskId newStatus t).2 = true ∧
    currentPlanInv initState = true := by
  refine ⟨?_, ?_, rfl⟩
  · by_cases hf : s.isPlanningInProgress
    · simpa [plan, hf, currentPlanInv] using hinv
    · rcases hcp : s.currentPlan with _ | p
      · simp [plan, hf, planStep, hcp, generatePlanM, currentPlanInv, planStatusOk,
          generatePlan]
      · by_cases hall : (p.subtasks.all fun task => task.status == "completed") = true
        · simp [plan, hf, planStep, hcp, checkPlanProgress, isAllSubtasksCompleted, hall,
            completePlan, currentPlanInv]
        · have hinv2 : planStatusOk p = true := by
            rw [currentPlanInv, hcp] at hinv
            exact hinv
          simp [plan, hf, planStep, hcp, checkPlanProgress, isAllSubtasksCompleted, hall,
            completePlan, currentPlanInv, hinv2]
  · rcases hcp : s.currentPlan with _ | p
    · simp [updateSubtaskStatus, hcp, currentPlanInv]
    · have hinv2 : planStatusOk p = true := by
        rw [currentPlanInv, hcp] at hinv
        exact hinv
      by_cases hany : (p.subtasks.any fun task => task.id == subtaskId) = true
      · simp [updateSubtaskStatus, hcp, hany, currentPlanInv, planStatusOk] at hinv2 ⊢
        exact hinv2
      · simpa [updateSubtaskStatus, hcp, hany, currentPlanInv, hcp] using hinv

/-- Witness for C9: the invariant evaluated from the initial state through a
planning cycle and a subtask update. -/
theorem planner_current_plan_invariant_witness :
    currentPlanInv (plan initState 4).1 = true ∧
    currentPlanInv (updateSubtaskStatus initState "t1" "completed" 4).2 = true ∧
    currentPlanInv initState = true :=
  planner_current_plan_invariant initState 4 "t1" "completed" rfl

end MainPlanning

namespace AutoLoop

/-- A run of trigger units that all succeed invokes each exactly once, in
registration order, and reports no errors. -/
theorem executeTriggers_ok_units (ys : List Nat) (s : List Nat) :
    executeTriggers (ys.map appendUnit) s = (s ++ ys, []) := by
  induction ys generalizing s with
  | nil => simp [executeTriggers]
  | cons y l ih => simp [executeTriggers, appendUnit, ih]

/-- Claim C8: with a registry consisting of succeeding units around one unit
that always throws, a single tick invokes every succeeding unit exactly once
in registration order (the world records their indices in order) and reports
the failure exactly once. -/
theorem executeTriggers_isolation (xs ys s : List Nat) :
    executeTriggers (xs.map appendUnit ++ failingUnit :: ys.map appendUnit) s
      = (s ++ xs ++ ys, ["trigger failed"]) := by
  induction xs generalizing s with
  | nil => simp [executeTriggers, failingUnit, executeTriggers_ok_units]
  | cons x l ih => simp [executeTriggers, appendUnit, ih]

end AutoLoop

namespace MainLoop

/-- Claim C10: in the single-timer loop tick, once the planning interval has
elapsed, a throwing planning function leaves the whole loop state — in
particular lastPlanTime — unchanged while still counting as an invocation,
so any later tick still passes the elapsed-interval test and retries; a
successful run advances lastPlanTime to the current tick time. -/
theorem lastPlanTime_on_failure (s : LoopState) (t tNext : Int) (e : String)
    (o : Except String Unit)
    (hpf : s.hasPlanningFunction = true)
    (helapsed : t - s.lastPlanTime ≥ s.planIntervalMs)
    (hnext : tNext ≥ t) :
    planningTick s t (Except.error e) = (s, true) ∧
    (planningTick s tNext o).2 = true ∧
    (planningTick s t (Except.ok ())).1.lastPlanTime = t := by
  have hcond : s.hasPlanningFunction = true ∧ t - s.lastPlanTime ≥ s.planIntervalMs :=
    ⟨hpf, helapsed⟩
  have hcond2 : s.hasPlanningFunction = true ∧ tNext - s.lastPlanTime ≥ s.planIntervalMs :=
    ⟨hpf, by omega⟩
  refine ⟨?_, ?_, ?_⟩
  · unfold planningTick
    rw [if_pos hcond]
  · unfold planningTick
    rw [if_pos hcond2]
    cases o with
    | ok u => rfl
    | error e2 => rfl
  · unfold planningTick
    rw [if_pos hcond]

/-- Witness for C10: the tick evaluated on a concrete loop state with the
interval elapsed, a failing outcome at time 10 and a later tick at 15. -/
theorem lastPlanTime_on_failure_witness :
    planningTick { lastPlanTime := 0, planIntervalMs := 10, hasPlanningFunction := true } 10
        (Except.error "boom")
      = ({ lastPlanTime := 0, planIntervalMs := 10, hasPlanningFunction := true }, true) ∧
    (planningTick { lastPlanTime := 0, planIntervalMs := 10, hasPlanningFunction := true } 15
        (Except.ok ())).2 = true ∧
    (planningTick { lastPlanTime := 0, planIntervalMs := 10, hasPlanningFunction := true } 10
        (Except.ok ())).1.lastPlanTime = 10 :=
  lastPlanTime_on_failure
    { lastPlanTime := 0, planIntervalMs := 10, hasPlanningFunction := true }
    10 15 "boom" (Except.ok ()) rfl (by decide) (by decide)

end MainLoop
